import Mathlib

/-
Verification of the Telegram AI-coach bot (telegram_bot.py, utils.py).

The MongoDB users collection is modelled as an association list of
user records in document order.  find_one returns the first record
matching the user_id filter; insert_one appends a document; update_one
modifies the first matching document (and is a no-op when no document
matches, as in MongoDB without upsert).

External effects are modelled as explicit parameters:
the Groq generation call plus the subsequent reply_text send is an
oracle from prompt strings to a result (success, generation exception,
or reply exception); media download and file IO is a step that either
yields the downloaded input for the analysis functions or raises; the
Stripe checkout session URL is a parameter.  A handler that would let
an exception escape is given the return type Option.
-/

namespace TherapistBot

/-- A user document in the users collection.  Fields mirror the document
inserted by start and handle_message. -/
structure UserRecord where
  message_count : Nat
  subscribed : Bool
  conversation_history : List (String × String)
deriving Repr, DecidableEq

/-- The users collection: documents in insertion order, keyed by user_id. -/
abbrev Db := List (Nat × UserRecord)

/-- The document inserted for a new user by start and handle_message. -/
def defaultRecord : UserRecord :=
  { message_count := 0, subscribed := false, conversation_history := [] }

/-- Model of users_collection.find_one on a user_id filter: the first
document whose user_id matches. -/
def findOne : Db → Nat → Option UserRecord
  | [], _ => none
  | (i, r) :: rest, uid => if i = uid then some r else findOne rest uid

/-- Model of users_collection.update_one on a user_id filter: apply the
update to the first matching document; no-op when none matches. -/
def updateOne : Db → Nat → (UserRecord → UserRecord) → Db
  | [], _, _ => []
  | (i, r) :: rest, uid, f =>
      if i = uid then (i, f r) :: rest else (i, r) :: updateOne rest uid f

/-- Model of users_collection.insert_one: append the document. -/
def insertOne (db : Db) (uid : Nat) (r : UserRecord) : Db :=
  db ++ [(uid, r)]

/-- The check-and-insert performed by start and by handle_message:
insert the default document when no document for the user exists. -/
def ensureUser (db : Db) (uid : Nat) : Db :=
  if (findOne db uid).isSome then db else insertOne db uid defaultRecord

/-- Model of is_subscription_active: user_data and user_data.get with
default False.  A missing document is falsy. -/
def is_subscription_active : Option UserRecord → Bool
  | none => false
  | some u => u.subscribed

/-- Outcome of the try block around get_groq_response and reply_text:
ok means both succeeded with the given response text; genError means
get_groq_response raised; replyError means generation succeeded with the
given response but reply_text raised. -/
inductive GenResult where
  | ok (response : String)
  | genError
  | replyError (response : String)
deriving Repr, DecidableEq

/-- The reply the user receives from a handler. -/
inductive Reply where
  | generated (s : String)
  | apology (s : String)
  | paywall (url : String)
deriving Repr, DecidableEq

/-- Result of a message handler: the database after the handler and the
reply sent to the user. -/
structure HMResult where
  db : Db
  reply : Reply
deriving Repr, DecidableEq

/-- A single apostrophe character, used in the literal reply strings. -/
def apos : String := String.singleton (Char.ofNat 39)

/-- The generic failure reply of handle_message. -/
def msgApology : String := "Sorry, I couldn" ++ apos ++ "t process your request."

/-- The generic failure reply of handle_photo. -/
def photoApology : String := "Sorry, I couldn" ++ apos ++ "t process the image."

/-- The generic failure reply of handle_voice. -/
def voiceApology : String := "Sorry, I couldn" ++ apos ++ "t process the audio message."

/-- The generic failure reply of handle_video. -/
def videoApology : String := "Sorry, I couldn" ++ apos ++ "t process the video message."

/-- One line of the conversation history rendering used in the prompt. -/
def promptLine (p : String × String) : String :=
  "User: " ++ p.1 ++ "\nBot: " ++ p.2

/-- The full prompt handle_message sends to get_groq_response: the joined
conversation history followed by the new user message. -/
def promptOf (db : Db) (uid : Nat) (msg : String) : String :=
  String.intercalate "\n"
      ((((findOne db uid).getD defaultRecord).conversation_history).map promptLine)
    ++ "\nUser: " ++ msg

/-- The update handle_message performs after a successful reply: inc of
message_count by 1 and push of the prompt/response pair. -/
def pushMessage (msg response : String) (r : UserRecord) : UserRecord :=
  { r with message_count := r.message_count + 1,
           conversation_history := r.conversation_history ++ [(msg, response)] }

/-- The update reset performs: set conversation_history to the empty list. -/
def clearHistory (r : UserRecord) : UserRecord :=
  { r with conversation_history := [] }

/-- Model of handle_message.  The two Python branches on response_text
versus update.message.text run identical code on a single string, so they
are collapsed into one path over the string msg. -/
def handle_message (env : String → GenResult) (checkoutUrl : String)
    (db : Db) (uid : Nat) (msg : String) : HMResult :=
  let db1 := ensureUser db uid
  let user_data := findOne db1 uid
  if is_subscription_active user_data = true
      ∨ (user_data.getD defaultRecord).message_count < 10 then
    match env (promptOf db1 uid msg) with
    | GenResult.ok response =>
        { db := updateOne db1 uid (pushMessage msg response),
          reply := Reply.generated response }
    | GenResult.genError => { db := db1, reply := Reply.apology msgApology }
    | GenResult.replyError _ => { db := db1, reply := Reply.apology msgApology }
  else
    { db := db1, reply := Reply.paywall checkoutUrl }

/-- Model of the start command: insert the default document when absent.
The welcome message it sends does not touch the database. -/
def start (db : Db) (uid : Nat) : Db :=
  ensureUser db uid

/-- Model of the reset command: set conversation_history to []. -/
def reset (db : Db) (uid : Nat) : Db :=
  updateOne db uid clearHistory

/-- The update applied by the Stripe webhook handlers: set subscribed. -/
def setSubscribed (b : Bool) (r : UserRecord) : UserRecord :=
  { r with subscribed := b }

/-- Model of handle_checkout_session.  session.get of client_reference_id
may be absent; the Python int conversion of None raises, so the absent
case returns none (the exception escapes the handler). -/
def handle_checkout_session (db : Db) (clientRef : Option Nat) : Option Db :=
  match clientRef with
  | some uid => some (updateOne db uid (setSubscribed true))
  | none => none

/-- Model of handle_invoice_payment_succeeded: the Python body only logs
the invoice and performs no database operation. -/
def handle_invoice_payment_succeeded (db : Db) : Db :=
  db

/-- Model of handle_subscription_updated: update subscribed to whether the
status string equals active, only when metadata carries a user_id. -/
def handle_subscription_updated (db : Db) (metaUid : Option Nat)
    (status : String) : Db :=
  match metaUid with
  | some uid => updateOne db uid (setSubscribed (status == "active"))
  | none => db

/-- Model of handle_subscription_deleted: set subscribed to false, only
when metadata carries a user_id. -/
def handle_subscription_deleted (db : Db) (metaUid : Option Nat) : Db :=
  match metaUid with
  | some uid => updateOne db uid (setSubscribed false)
  | none => db

/-- A Stripe event after signature verification, reduced to the payload
fields the handlers read. -/
inductive StripeEvent where
  | checkoutSessionCompleted (clientRef : Option Nat)
  | invoicePaymentSucceeded
  | subscriptionUpdated (metaUid : Option Nat) (status : String)
  | subscriptionDeleted (metaUid : Option Nat)
  | other (eventType : String)

/-- Model of the event-type dispatch of the stripe_webhook route; none
means an exception escaped a handler. -/
def stripe_webhook (db : Db) : StripeEvent → Option Db
  | StripeEvent.checkoutSessionCompleted ref => handle_checkout_session db ref
  | StripeEvent.invoicePaymentSucceeded =>
      some (handle_invoice_payment_succeeded db)
  | StripeEvent.subscriptionUpdated mu st =>
      some (handle_subscription_updated db mu st)
  | StripeEvent.subscriptionDeleted mu =>
      some (handle_subscription_deleted db mu)
  | StripeEvent.other _ => some db

/-- Result of the FER detector on one face: the list of detections, each
an emotions table in iteration order (label, score). -/
abbrev FaceDetections := List (List (String × Int))

/-- Model of the Python max over a dict keyed by its get: the first key
attaining the maximal value; none when the table is empty (ValueError). -/
def dominantKey (l : List (String × Int)) : Option String :=
  (l.foldl
    (fun acc p =>
      match acc with
      | none => some p
      | some q => if p.2 > q.2 then some p else some q)
    none).map Prod.fst

/-- Model of detect_emotion: dominant emotion of the first detection, or
neutral when the detector found nothing; none means the max raised. -/
def detect_emotion (detected : FaceDetections) : Option String :=
  match detected with
  | [] => some "neutral"
  | d :: _ => dominantKey d

/-- Environment of analyze_image: either some exception inside the try
block (imread failure, cascade failure, ...), or the list of faces found,
each with its FER detections. -/
inductive ImgEnv where
  | exn
  | faces (fs : List FaceDetections)

/-- Model of analyze_image: per-face detect_emotion results, with the
fallback value on any exception, including one raised inside
detect_emotion mid-loop. -/
def analyze_image : ImgEnv → List String
  | ImgEnv.exn => ["error"]
  | ImgEnv.faces fs =>
      match fs.mapM detect_emotion with
      | none => ["error"]
      | some es => es

/-- Sentiment entry returned by the sentiment-analysis pipeline. -/
structure Sentiment where
  label : String
deriving Repr, DecidableEq

/-- Environment of analyze_audio: either some exception (conversion,
recognition, pipeline), or the recognized text with its sentiment list. -/
inductive AudEnv where
  | exn
  | ok (text : String) (sentiment : List Sentiment)

/-- Model of analyze_audio with its fallback pair on any exception. -/
def analyze_audio : AudEnv → String × List Sentiment
  | AudEnv.exn => ("error", [{ label := "neutral" }])
  | AudEnv.ok t ls => (t, ls)

/-- Environment of analyze_video: either some exception, or the faces
found across all frames in encounter order, each with its detections. -/
inductive VidEnv where
  | exn
  | frames (fs : List FaceDetections)

/-- Model of analyze_video: per-face detect_emotion results across
frames; fallback value on any exception; neutral when no face was found. -/
def analyze_video : VidEnv → List String
  | VidEnv.exn => ["error"]
  | VidEnv.frames fs =>
      match fs.mapM detect_emotion with
      | none => ["error"]
      | some es => if es.isEmpty then ["neutral"] else es

/-- Outcome of the download-and-analyze steps of a media handler before
handle_message is reached: either an exception, or the analysis input. -/
inductive MediaStep (α : Type) where
  | exn
  | ok (val : α)

/-- Model of handle_photo: on any exception the apology is sent and the
database is untouched; otherwise the emotions are rendered into the
response text and handle_message runs. -/
def handle_photo (env : String → GenResult) (checkoutUrl : String)
    (db : Db) (uid : Nat) (step : MediaStep ImgEnv) : HMResult :=
  match step with
  | MediaStep.exn => { db := db, reply := Reply.apology photoApology }
  | MediaStep.ok ienv =>
      handle_message env checkoutUrl db uid
        ("Detected emotions in the image: "
          ++ String.intercalate ", " (analyze_image ienv)
          ++ ".\nGenerate a response based on these emotions.")

/-- Model of handle_voice.  The subscript sentiment[0] raises IndexError
on an empty sentiment list; that exception is caught by the surrounding
try and yields the apology. -/
def handle_voice (env : String → GenResult) (checkoutUrl : String)
    (db : Db) (uid : Nat) (step : MediaStep AudEnv) : HMResult :=
  match step with
  | MediaStep.exn => { db := db, reply := Reply.apology voiceApology }
  | MediaStep.ok aenv =>
      match analyze_audio aenv with
      | (text, sentiment) =>
          match sentiment.head? with
          | none => { db := db, reply := Reply.apology voiceApology }
          | some s =>
              handle_message env checkoutUrl db uid
                ("User" ++ apos ++ "s sentiment: " ++ s.label
                  ++ ".\nUser" ++ apos ++ "s message: " ++ text ++ "\nResponse:")

/-- Model of handle_video, analogous to handle_photo. -/
def handle_video (env : String → GenResult) (checkoutUrl : String)
    (db : Db) (uid : Nat) (step : MediaStep VidEnv) : HMResult :=
  match step with
  | MediaStep.exn => { db := db, reply := Reply.apology videoApology }
  | MediaStep.ok venv =>
      handle_message env checkoutUrl db uid
        ("Detected emotions in the video: "
          ++ String.intercalate ", " (analyze_video venv)
          ++ ".\nGenerate a response based on these emotions.")

/-- Every operation of the program that can touch the users collection. -/
inductive Op where
  | opStart (uid : Nat)
  | opReset (uid : Nat)
  | opMessage (env : String → GenResult) (checkoutUrl : String)
      (uid : Nat) (msg : String)
  | opPhoto (env : String → GenResult) (checkoutUrl : String)
      (uid : Nat) (step : MediaStep ImgEnv)
  | opVoice (env : String → GenResult) (checkoutUrl : String)
      (uid : Nat) (step : MediaStep AudEnv)
  | opVideo (env : String → GenResult) (checkoutUrl : String)
      (uid : Nat) (step : MediaStep VidEnv)
  | opWebhook (ev : StripeEvent)

/-- The database transition of an operation.  A webhook run that raises
does so before any update, so the database is unchanged in that case. -/
def applyOp : Op → Db → Db
  | Op.opStart uid, db => start db uid
  | Op.opReset uid, db => reset db uid
  | Op.opMessage env curl uid msg, db => (handle_message env curl db uid msg).db
  | Op.opPhoto env curl uid step, db => (handle_photo env curl db uid step).db
  | Op.opVoice env curl uid step, db => (handle_voice env curl db uid step).db
  | Op.opVideo env curl uid step, db => (handle_video env curl db uid step).db
  | Op.opWebhook ev, db => (stripe_webhook db ev).getD db

/-- Whether the operation is the reset command. -/
def Op.isReset : Op → Bool
  | Op.opReset _ => true
  | _ => false

/-- Whether the operation arrives through the Telegram interface rather
than the Stripe webhook endpoint. -/
def Op.telegramSide : Op → Bool
  | Op.opWebhook _ => false
  | _ => true

/-- Characterization of update_one under find_one: the matched document
is mapped, every other lookup is unchanged. -/
theorem findOne_updateOne (db : Db) (uid v : Nat) (f : UserRecord → UserRecord) :
    findOne (updateOne db uid f) v =
      if v = uid then (findOne db uid).map f else findOne db v := by
  induction db with
  | nil =>
      simp only [updateOne, findOne, Option.map_none']
      split <;> rfl
  | cons hd tl ih =>
      obtain ⟨i, r⟩ := hd
      by_cases h1 : i = uid
      · subst h1
        simp only [updateOne, if_pos rfl, findOne]
        by_cases h2 : i = v
        · subst h2
          simp
        · have h3 : ¬ v = i := fun h => h2 h.symm
          simp [h2, h3]
      · simp only [updateOne, if_neg h1, findOne, ih]
        by_cases h2 : i = v
        · subst h2
          simp [h1]
        · simp [h2]

/-- A successful lookup is unaffected by appending documents. -/
theorem findOne_append_of_some (db db2 : Db) (v : Nat) (r : UserRecord)
    (h : findOne db v = some r) : findOne (db ++ db2) v = some r := by
  induction db with
  | nil => exact absurd h (by simp [findOne])
  | cons hd tl ih =>
      obtain ⟨i, x⟩ := hd
      by_cases h2 : i = v
      · simp only [findOne, if_pos h2] at h
        simp [findOne, h2, h]
      · simp only [findOne, if_neg h2] at h
        simp only [List.cons_append, findOne, if_neg h2]
        exact ih h

/-- A failed lookup continues into the appended documents. -/
theorem findOne_append_of_none (db db2 : Db) (v : Nat)
    (h : findOne db v = none) : findOne (db ++ db2) v = findOne db2 v := by
  induction db with
  | nil => simp
  | cons hd tl ih =>
      obtain ⟨i, x⟩ := hd
      by_cases h2 : i = v
      · simp [findOne, if_pos h2] at h
      · simp only [findOne, if_neg h2] at h
        simp only [List.cons_append, findOne, if_neg h2]
        exact ih h

/-- Looking up the user after the check-and-insert always succeeds, and
yields the stored document or, when none was stored, the default one. -/
theorem findOne_ensureUser_self (db : Db) (uid : Nat) :
    findOne (ensureUser db uid) uid = some ((findOne db uid).getD defaultRecord) := by
  unfold ensureUser
  cases h : findOne db uid with
  | some r => simp [h]
  | none =>
      simp only [h, Option.isSome_none, Bool.false_eq_true, if_neg, Option.getD_none,
        if_false, insertOne]
      rw [findOne_append_of_none db _ uid h]
      simp [findOne]

/-- The check-and-insert does not affect lookups of other users. -/
theorem findOne_ensureUser_other (db : Db) (uid v : Nat) (h : ¬ v = uid) :
    findOne (ensureUser db uid) v = findOne db v := by
  unfold ensureUser
  split
  · rfl
  · unfold insertOne
    cases h2 : findOne db v with
    | some r => exact findOne_append_of_some db _ v r h2
    | none =>
        rw [findOne_append_of_none db _ v h2]
        have h3 : ¬ uid = v := fun hc => h hc.symm
        simp [findOne, h3]

/-- When the user already has a document the check-and-insert is a no-op. -/
theorem ensureUser_of_some (db : Db) (uid : Nat) (r : UserRecord)
    (h : findOne db uid = some r) : ensureUser db uid = db := by
  unfold ensureUser
  simp [h]

/-- The database after handle_message: either untouched past the
check-and-insert (paywall branch or an exception in the try block), or the
single inc-and-push update of the successful branch. -/
theorem handle_message_db_cases (env : String → GenResult) (curl : String)
    (db : Db) (uid : Nat) (msg : String) :
    (handle_message env curl db uid msg).db = ensureUser db uid
    ∨ ∃ s, env (promptOf (ensureUser db uid) uid msg) = GenResult.ok s ∧
        (handle_message env curl db uid msg).db
          = updateOne (ensureUser db uid) uid (pushMessage msg s) := by
  simp only [handle_message]
  split
  · split
    · rename_i s hs
      exact Or.inr ⟨s, hs, rfl⟩
    · exact Or.inl rfl
    · exact Or.inl rfl
  · exact Or.inl rfl

/-- An existing document survives the check-and-insert for any user. -/
theorem findOne_ensureUser_of_some (db : Db) (w uid : Nat) (r : UserRecord)
    (h : findOne db uid = some r) : findOne (ensureUser db w) uid = some r := by
  by_cases hw : uid = w
  · subst hw
    rw [findOne_ensureUser_self db uid, h]
    rfl
  · rw [findOne_ensureUser_other db w uid hw]
    exact h

/-- Evolution of any existing document across one handle_message run, for
any addressed user: the document survives, its count never drops, its
history is unchanged or extended by one pair, its flag is unchanged. -/
theorem handle_message_findOne (env : String → GenResult) (curl : String)
    (db : Db) (w uid : Nat) (msg : String) (r : UserRecord)
    (h : findOne db uid = some r) :
    ∃ r', findOne ((handle_message env curl db w msg).db) uid = some r'
      ∧ r.message_count ≤ r'.message_count
      ∧ (r'.conversation_history = r.conversation_history
          ∨ ∃ p, r'.conversation_history = r.conversation_history ++ [p])
      ∧ r'.subscribed = r.subscribed := by
  have hens : findOne (ensureUser db w) uid = some r :=
    findOne_ensureUser_of_some db w uid r h
  rcases handle_message_db_cases env curl db w msg with hc | ⟨s, _, hc⟩
  · exact ⟨r, by rw [hc]; exact hens, le_refl _, Or.inl rfl, rfl⟩
  · rw [hc, findOne_updateOne]
    by_cases hw : uid = w
    · subst hw
      rw [if_pos rfl, hens]
      exact ⟨pushMessage msg s r, rfl, Nat.le_succ _, Or.inr ⟨(msg, s), rfl⟩, rfl⟩
    · rw [if_neg hw]
      exact ⟨r, hens, le_refl _, Or.inl rfl, rfl⟩

/-- Evolution of any existing document across any single operation of the
program: the document survives; message_count never decreases; outside the
reset command the history is only ever extended, by at most one pair; and
outside the webhook endpoint the subscribed flag is unchanged. -/
theorem applyOp_findOne (op : Op) (db : Db) (uid : Nat) (r : UserRecord)
    (h : findOne db uid = some r) :
    ∃ r', findOne (applyOp op db) uid = some r'
      ∧ r.message_count ≤ r'.message_count
      ∧ (Op.isReset op = false →
          (r'.conversation_history = r.conversation_history
            ∨ ∃ p, r'.conversation_history = r.conversation_history ++ [p]))
      ∧ (Op.telegramSide op = true → r'.subscribed = r.subscribed) := by
  cases op with
  | opStart w =>
      exact ⟨r, findOne_ensureUser_of_some db w uid r h, le_refl _,
        fun _ => Or.inl rfl, fun _ => rfl⟩
  | opReset w =>
      simp only [applyOp, reset, findOne_updateOne, Op.isReset, Op.telegramSide]
      by_cases hw : uid = w
      · subst hw
        rw [if_pos rfl, h]
        exact ⟨clearHistory r, rfl, le_refl _,
          fun hfalse => absurd hfalse (by simp), fun _ => rfl⟩
      · rw [if_neg hw, h]
        exact ⟨r, rfl, le_refl _, fun _ => Or.inl rfl, fun _ => rfl⟩
  | opMessage env curl w msg =>
      obtain ⟨r', h1, h2, h3, h4⟩ := handle_message_findOne env curl db w uid msg r h
      exact ⟨r', h1, h2, fun _ => h3, fun _ => h4⟩
  | opPhoto env curl w step =>
      cases step with
      | exn => exact ⟨r, h, le_refl _, fun _ => Or.inl rfl, fun _ => rfl⟩
      | ok ienv =>
          obtain ⟨r', h1, h2, h3, h4⟩ := handle_message_findOne env curl db w uid _ r h
          exact ⟨r', h1, h2, fun _ => h3, fun _ => h4⟩
  | opVoice env curl w step =>
      cases step with
      | exn => exact ⟨r, h, le_refl _, fun _ => Or.inl rfl, fun _ => rfl⟩
      | ok aenv =>
          simp only [applyOp, handle_voice]
          cases hsent : (analyze_audio aenv).2.head? with
          | none =>
              refine ⟨r, ?_, le_refl _, fun _ => Or.inl rfl, fun _ => rfl⟩
              simp [hsent, h]
          | some s =>
              obtain ⟨r', h1, h2, h3, h4⟩ := handle_message_findOne env curl db w uid
                ("User" ++ apos ++ "s sentiment: " ++ s.label ++ ".\nUser" ++ apos
                  ++ "s message: " ++ (analyze_audio aenv).1 ++ "\nResponse:") r h
              refine ⟨r', ?_, h2, fun _ => h3, fun _ => h4⟩
              simp only [hsent]
              exact h1
  | opVideo env curl w step =>
      cases step with
      | exn => exact ⟨r, h, le_refl _, fun _ => Or.inl rfl, fun _ => rfl⟩
      | ok venv =>
          obtain ⟨r', h1, h2, h3, h4⟩ := handle_message_findOne env curl db w uid _ r h
          exact ⟨r', h1, h2, fun _ => h3, fun _ => h4⟩
  | opWebhook ev =>
      cases ev with
      | checkoutSessionCompleted ref =>
          cases ref with
          | none => exact ⟨r, h, le_refl _, fun _ => Or.inl rfl, fun hfalse => by cases hfalse⟩
          | some u =>
              simp only [applyOp, stripe_webhook, handle_checkout_session,
                Option.getD_some, findOne_updateOne]
              by_cases hu : uid = u
              · subst hu
                rw [if_pos rfl, h]
                exact ⟨setSubscribed true r, rfl, le_refl _, fun _ => Or.inl rfl,
                  fun hfalse => by cases hfalse⟩
              · rw [if_neg hu, h]
                exact ⟨r, rfl, le_refl _, fun _ => Or.inl rfl, fun hfalse => by cases hfalse⟩
      | invoicePaymentSucceeded =>
          exact ⟨r, h, le_refl _, fun _ => Or.inl rfl, fun hfalse => by cases hfalse⟩
      | subscriptionUpdated mu st =>
          cases mu with
          | none => exact ⟨r, h, le_refl _, fun _ => Or.inl rfl, fun hfalse => by cases hfalse⟩
          | some u =>
              simp only [applyOp, stripe_webhook, handle_subscription_updated,
                Option.getD_some, findOne_updateOne]
              by_cases hu : uid = u
              · subst hu
                rw [if_pos rfl, h]
                exact ⟨setSubscribed (st == "active") r, rfl, le_refl _,
                  fun _ => Or.inl rfl, fun hfalse => by cases hfalse⟩
              · rw [if_neg hu, h]
                exact ⟨r, rfl, le_refl _, fun _ => Or.inl rfl, fun hfalse => by cases hfalse⟩
      | subscriptionDeleted mu =>
          cases mu with
          | none => exact ⟨r, h, le_refl _, fun _ => Or.inl rfl, fun hfalse => by cases hfalse⟩
          | some u =>
              simp only [applyOp, stripe_webhook, handle_subscription_deleted,
                Option.getD_some, findOne_updateOne]
              by_cases hu : uid = u
              · subst hu
                rw [if_pos rfl, h]
                exact ⟨setSubscribed false r, rfl, le_refl _, fun _ => Or.inl rfl,
                  fun hfalse => by cases hfalse⟩
              · rw [if_neg hu, h]
                exact ⟨r, rfl, le_refl _, fun _ => Or.inl rfl, fun hfalse => by cases hfalse⟩
      | other t =>
          exact ⟨r, h, le_refl _, fun _ => Or.inl rfl, fun hfalse => by cases hfalse⟩

/-- On the successful generation branch with an existing document,
handle_message performs exactly the inc-and-push update. -/
theorem handle_message_success (env : String → GenResult) (curl : String)
    (db : Db) (uid : Nat) (msg : String) (r : UserRecord) (s : String)
    (h : findOne db uid = some r)
    (hs : env (promptOf db uid msg) = GenResult.ok s)
    (hopen : is_subscription_active (some r) = true ∨ r.message_count < 10) :
    (handle_message env curl db uid msg).db = updateOne db uid (pushMessage msg s)
    ∧ findOne ((handle_message env curl db uid msg).db) uid
        = some (pushMessage msg s r) := by
  have he : ensureUser db uid = db := ensureUser_of_some db uid r h
  have hcond : is_subscription_active (findOne db uid) = true
      ∨ ((findOne db uid).getD defaultRecord).message_count < 10 := by
    rw [h]
    exact hopen
  have hdb : (handle_message env curl db uid msg).db
      = updateOne db uid (pushMessage msg s) := by
    simp only [handle_message, he]
    rw [if_pos hcond, hs]
  refine ⟨hdb, ?_⟩
  rw [hdb, findOne_updateOne, if_pos rfl, h]
  rfl

/-- The addressed user always has a document after handle_message. -/
theorem handle_message_keeps_self (env : String → GenResult) (curl : String)
    (db : Db) (uid : Nat) (msg : String) :
    (findOne ((handle_message env curl db uid msg).db) uid).isSome = true := by
  rcases handle_message_db_cases env curl db uid msg with hc | ⟨s, _, hc⟩
  · rw [hc, findOne_ensureUser_self]
    rfl
  · rw [hc, findOne_updateOne, if_pos rfl, findOne_ensureUser_self]
    rfl

/-- C1: when the stored user record has subscribed false and
message_count at least 10, handle_message replies with the Stripe
checkout paywall link; conversely when subscribed is true or
message_count is below 10 it proceeds to the generation branch, sending
the generated reply on success and the generic apology on a caught
exception, never the paywall. -/
theorem C1_paywall_gate (env : String → GenResult) (curl : String) (db : Db)
    (uid : Nat) (msg : String) (r : UserRecord)
    (h : findOne db uid = some r) :
    (r.subscribed = false → 10 ≤ r.message_count →
        (handle_message env curl db uid msg).reply = Reply.paywall curl)
    ∧ ((r.subscribed = true ∨ r.message_count < 10) →
        (∀ s, env (promptOf db uid msg) = GenResult.ok s →
            (handle_message env curl db uid msg).reply = Reply.generated s)
        ∧ (env (promptOf db uid msg) = GenResult.genError →
            (handle_message env curl db uid msg).reply = Reply.apology msgApology)
        ∧ (∀ s, env (promptOf db uid msg) = GenResult.replyError s →
            (handle_message env curl db uid msg).reply = Reply.apology msgApology)) := by
  have he : ensureUser db uid = db := ensureUser_of_some db uid r h
  constructor
  · intro hsub hcnt
    have hcond : ¬ (is_subscription_active (findOne db uid) = true
        ∨ ((findOne db uid).getD defaultRecord).message_count < 10) := by
      rw [h]
      simp [is_subscription_active, hsub, Nat.not_lt.mpr hcnt]
    simp only [handle_message, he]
    rw [if_neg hcond]
  · intro hopen
    have hcond : is_subscription_active (findOne db uid) = true
        ∨ ((findOne db uid).getD defaultRecord).message_count < 10 := by
      rw [h]
      rcases hopen with hs | hc
      · exact Or.inl (by simp [is_subscription_active, hs])
      · exact Or.inr hc
    refine ⟨?_, ?_, ?_⟩
    · intro s hs
      simp only [handle_message, he]
      rw [if_pos hcond, hs]
    · intro hs
      simp only [handle_message, he]
      rw [if_pos hcond, hs]
    · intro s hs
      simp only [handle_message, he]
      rw [if_pos hcond, hs]

/-- Witness for C1 at a concrete database: user 1 has no subscription and
10 messages, so the paywall is sent; user 2 is fresh, so the generated
reply is sent. -/
theorem C1_paywall_gate_witness :
    (handle_message (fun _ => GenResult.ok "fine") "url0"
        [(1, { message_count := 10, subscribed := false, conversation_history := [] })]
        1 "hello").reply = Reply.paywall "url0"
    ∧ (handle_message (fun _ => GenResult.ok "fine") "url0"
        [(2, { message_count := 0, subscribed := false, conversation_history := [] })]
        2 "hi").reply = Reply.generated "fine" := by
  constructor
  · exact (C1_paywall_gate (fun _ => GenResult.ok "fine") "url0"
      [(1, { message_count := 10, subscribed := false, conversation_history := [] })]
      1 "hello" { message_count := 10, subscribed := false, conversation_history := [] }
      rfl).1 rfl (by decide)
  · exact ((C1_paywall_gate (fun _ => GenResult.ok "fine") "url0"
      [(2, { message_count := 0, subscribed := false, conversation_history := [] })]
      2 "hi" { message_count := 0, subscribed := false, conversation_history := [] }
      rfl).2 (Or.inr (by decide))).1 "fine" rfl

/-- C2 counterexample: an invoice.payment_succeeded event performs no
database update at all; the webhook returns the database unchanged even
though the stored record has subscribed false and could be updated. -/
theorem C2_invoice_no_update_counterexample :
    stripe_webhook
        [(1, { message_count := 3, subscribed := false, conversation_history := [] })]
        StripeEvent.invoicePaymentSucceeded
      = some [(1, { message_count := 3, subscribed := false, conversation_history := [] })] :=
  rfl

/-- C2 amended: of the four recognized event types, checkout completed,
subscription updated with a user_id in metadata, and subscription deleted
with a user_id in metadata each perform a single-field update of the
subscribed flag on the matching record; invoice.payment_succeeded
performs no database update, and the subscription events without a
user_id in metadata perform none either.  The final conjunct records that
the applied update touches only the subscribed field. -/
theorem C2_webhook_single_field_updates (db : Db) (u : Nat) (status : String) :
    stripe_webhook db (StripeEvent.checkoutSessionCompleted (some u))
        = some (updateOne db u (setSubscribed true))
    ∧ stripe_webhook db StripeEvent.invoicePaymentSucceeded = some db
    ∧ stripe_webhook db (StripeEvent.subscriptionUpdated (some u) status)
        = some (updateOne db u (setSubscribed (status == "active")))
    ∧ stripe_webhook db (StripeEvent.subscriptionDeleted (some u))
        = some (updateOne db u (setSubscribed false))
    ∧ stripe_webhook db (StripeEvent.subscriptionUpdated none status) = some db
    ∧ stripe_webhook db (StripeEvent.subscriptionDeleted none) = some db
    ∧ (∀ b r, (setSubscribed b r).message_count = r.message_count
        ∧ (setSubscribed b r).conversation_history = r.conversation_history) :=
  ⟨rfl, rfl, rfl, rfl, rfl, rfl, fun _ _ => ⟨rfl, rfl⟩⟩

/-- C3 counterexample: the reset command removes existing entries of the
conversation_history, so the field is not append-only across all
operations of the program. -/
theorem C3_reset_prunes_counterexample :
    reset [(1, { message_count := 2, subscribed := false,
                 conversation_history := [("hi", "hello")] })] 1
      = [(1, { message_count := 2, subscribed := false,
               conversation_history := [] })] :=
  rfl

/-- C3 amended: conversation_history is append-only across every
operation except the reset command: outside reset an existing document
keeps its history or gains exactly one pair; reset replaces the history
with the empty list; and a successfully processed message appends exactly
its one prompt/response pair. -/
theorem C3_history_append_only_amended :
    (∀ op : Op, Op.isReset op = false → ∀ db uid r r',
        findOne db uid = some r → findOne (applyOp op db) uid = some r' →
        (r'.conversation_history = r.conversation_history
          ∨ ∃ p, r'.conversation_history = r.conversation_history ++ [p]))
    ∧ (∀ db uid r, findOne db uid = some r →
        findOne (reset db uid) uid = some (clearHistory r))
    ∧ (∀ env curl db uid msg r s, findOne db uid = some r →
        env (promptOf db uid msg) = GenResult.ok s →
        (is_subscription_active (some r) = true ∨ r.message_count < 10) →
        ∃ r', findOne ((handle_message env curl db uid msg).db) uid = some r'
          ∧ r'.conversation_history = r.conversation_history ++ [(msg, s)]) := by
  refine ⟨?_, ?_, ?_⟩
  · intro op hop db uid r r' h h'
    obtain ⟨r'', h1, _, h3, _⟩ := applyOp_findOne op db uid r h
    rw [h'] at h1
    cases h1
    exact h3 hop
  · intro db uid r h
    rw [reset, findOne_updateOne, if_pos rfl, h]
    rfl
  · intro env curl db uid msg r s h hs hopen
    exact ⟨pushMessage msg s r,
      (handle_message_success env curl db uid msg r s h hs hopen).2, rfl⟩

/-- Witness for C3 amended at concrete inputs: a start run leaves the
history alone, reset clears it, and one successful message appends its
pair. -/
theorem C3_history_append_only_amended_witness :
    findOne (reset [(1, UserRecord.mk 2 false [("a", "b")])] 1) 1
        = some (clearHistory (UserRecord.mk 2 false [("a", "b")]))
    ∧ ∃ r', findOne ((handle_message (fun _ => GenResult.ok "yes") "url0"
          [(3, UserRecord.mk 1 false [("a", "b")])] 3 "more").db) 3 = some r'
        ∧ r'.conversation_history = [("a", "b")] ++ [("more", "yes")] := by
  constructor
  · exact C3_history_append_only_amended.2.1
      [(1, UserRecord.mk 2 false [("a", "b")])] 1
      (UserRecord.mk 2 false [("a", "b")]) rfl
  · exact C3_history_append_only_amended.2.2 (fun _ => GenResult.ok "yes") "url0"
      [(3, UserRecord.mk 1 false [("a", "b")])] 3 "more"
      (UserRecord.mk 1 false [("a", "b")]) "yes" rfl rfl (Or.inr (by decide))

/-- C4: message_count is a monotonic counter: no operation of the program
decreases it, and a successfully processed message increments it by
exactly 1. -/
theorem C4_message_count_monotonic :
    (∀ op db uid r r', findOne db uid = some r →
        findOne (applyOp op db) uid = some r' →
        r.message_count ≤ r'.message_count)
    ∧ (∀ env curl db uid msg r s, findOne db uid = some r →
        env (promptOf db uid msg) = GenResult.ok s →
        (is_subscription_active (some r) = true ∨ r.message_count < 10) →
        ∃ r', findOne ((handle_message env curl db uid msg).db) uid = some r'
          ∧ r'.message_count = r.message_count + 1) := by
  constructor
  · intro op db uid r r' h h'
    obtain ⟨r'', h1, h2, _, _⟩ := applyOp_findOne op db uid r h
    rw [h'] at h1
    cases h1
    exact h2
  · intro env curl db uid msg r s h hs hopen
    exact ⟨pushMessage msg s r,
      (handle_message_success env curl db uid msg r s h hs hopen).2, rfl⟩

/-- Witness for C4 at concrete inputs: across a reset the count is
unchanged, and one successful message takes the count from 1 to 2. -/
theorem C4_message_count_monotonic_witness :
    (2 : Nat) ≤ 2
    ∧ ∃ r', findOne ((handle_message (fun _ => GenResult.ok "yes") "url0"
          [(3, UserRecord.mk 1 false [])] 3 "more").db) 3 = some r'
        ∧ r'.message_count = 1 + 1 := by
  constructor
  · exact C4_message_count_monotonic.1 (Op.opReset 1)
      [(1, UserRecord.mk 2 false [])] 1
      (UserRecord.mk 2 false []) (UserRecord.mk 2 false []) rfl rfl
  · exact C4_message_count_monotonic.2 (fun _ => GenResult.ok "yes") "url0"
      [(3, UserRecord.mk 1 false [])] 3 "more" (UserRecord.mk 1 false [])
      "yes" rfl rfl (Or.inr (by decide))

/-- C5: the subscribed flag of an existing record is never changed by a
Telegram-side operation (start, reset, handle_message, handle_photo,
handle_voice, handle_video); only the webhook handlers modify it. -/
theorem C5_subscribed_webhook_only (op : Op) (db : Db) (uid : Nat)
    (r : UserRecord) (hop : Op.telegramSide op = true)
    (h : findOne db uid = some r) :
    ∃ r', findOne (applyOp op db) uid = some r' ∧ r'.subscribed = r.subscribed := by
  obtain ⟨r', h1, _, _, h4⟩ := applyOp_findOne op db uid r h
  exact ⟨r', h1, h4 hop⟩

/-- Witness for C5: a reset run on a subscribed user leaves the flag
set. -/
theorem C5_subscribed_webhook_only_witness :
    ∃ r', findOne (applyOp (Op.opReset 1)
        [(1, UserRecord.mk 2 true [("a", "b")])]) 1 = some r'
      ∧ r'.subscribed = true :=
  C5_subscribed_webhook_only (Op.opReset 1)
    [(1, UserRecord.mk 2 true [("a", "b")])] 1
    (UserRecord.mk 2 true [("a", "b")]) rfl rfl

/-- C6 counterexample: a user whose very first contact is a photo whose
download raises gets the apology, but no record is ever created for them,
so record existence does not hold for every user who has sent a message. -/
theorem C6_media_failure_no_record_counterexample :
    findOne ((handle_photo (fun _ => GenResult.ok "x") "url0"
        [] 7 MediaStep.exn).db) 7 = none :=
  rfl

/-- C6 amended: after /start or a text message the user record exists,
initialized to the default document (message_count 0, subscribed false,
empty history) when absent; after a media message it exists provided the
download-and-analyze step did not raise (and, for voice, the sentiment
list is nonempty, since the subscript raises otherwise); and record
existence is preserved by every operation. -/
theorem C6_record_existence_amended :
    (∀ db uid, findOne db uid = none →
        findOne (ensureUser db uid) uid = some defaultRecord)
    ∧ (∀ db uid, (findOne (start db uid) uid).isSome = true)
    ∧ (∀ env curl db uid msg,
        (findOne ((handle_message env curl db uid msg).db) uid).isSome = true)
    ∧ (∀ env curl db uid ienv,
        (findOne ((handle_photo env curl db uid (MediaStep.ok ienv)).db) uid).isSome
          = true)
    ∧ (∀ env curl db uid aenv s,
        ((analyze_audio aenv).2).head? = some s →
        (findOne ((handle_voice env curl db uid (MediaStep.ok aenv)).db) uid).isSome
          = true)
    ∧ (∀ env curl db uid venv,
        (findOne ((handle_video env curl db uid (MediaStep.ok venv)).db) uid).isSome
          = true)
    ∧ (∀ op db uid, (findOne db uid).isSome = true →
        (findOne (applyOp op db) uid).isSome = true) := by
  refine ⟨?_, ?_, ?_, ?_, ?_, ?_, ?_⟩
  · intro db uid h
    rw [findOne_ensureUser_self, h]
    rfl
  · intro db uid
    rw [start, findOne_ensureUser_self]
    rfl
  · intro env curl db uid msg
    exact handle_message_keeps_self env curl db uid msg
  · intro env curl db uid ienv
    exact handle_message_keeps_self env curl db uid _
  · intro env curl db uid aenv s hsent
    simp only [handle_voice, hsent]
    exact handle_message_keeps_self env curl db uid _
  · intro env curl db uid venv
    exact handle_message_keeps_self env curl db uid _
  · intro op db uid h
    obtain ⟨r, hr⟩ := Option.isSome_iff_exists.mp h
    obtain ⟨r', h1, _, _, _⟩ := applyOp_findOne op db uid r hr
    rw [h1]
    rfl

/-- Witness for C6 amended: a fresh user gets the default document on
/start, and a webhook run preserves an existing record. -/
theorem C6_record_existence_amended_witness :
    findOne (ensureUser [] 5) 5 = some defaultRecord
    ∧ (findOne (applyOp (Op.opWebhook StripeEvent.invoicePaymentSucceeded)
        [(1, UserRecord.mk 1 false [])]) 1).isSome = true := by
  constructor
  · exact C6_record_existence_amended.1 [] 5 rfl
  · exact C6_record_existence_amended.2.2.2.2.2.2
      (Op.opWebhook StripeEvent.invoicePaymentSucceeded)
      [(1, UserRecord.mk 1 false [])] 1 rfl

/-- C7: every modelled exception during media download, analysis, or
language-model generation is caught, and the user receives the generic
failure message of the handler instead of the exception propagating. -/
theorem C7_exceptions_caught (env : String → GenResult) (curl : String)
    (db : Db) (uid : Nat) (msg : String) :
    (handle_photo env curl db uid MediaStep.exn).reply = Reply.apology photoApology
    ∧ (handle_voice env curl db uid MediaStep.exn).reply = Reply.apology voiceApology
    ∧ (handle_video env curl db uid MediaStep.exn).reply = Reply.apology videoApology
    ∧ ((is_subscription_active (findOne (ensureUser db uid) uid) = true
          ∨ ((findOne (ensureUser db uid) uid).getD defaultRecord).message_count < 10) →
        (env (promptOf (ensureUser db uid) uid msg) = GenResult.genError →
          (handle_message env curl db uid msg).reply = Reply.apology msgApology)
        ∧ (∀ s, env (promptOf (ensureUser db uid) uid msg) = GenResult.replyError s →
          (handle_message env curl db uid msg).reply = Reply.apology msgApology)) := by
  refine ⟨rfl, rfl, rfl, ?_⟩
  intro hopen
  constructor
  · intro hs
    simp only [handle_message]
    rw [if_pos hopen, hs]
  · intro s hs
    simp only [handle_message]
    rw [if_pos hopen, hs]

/-- Witness for C7: a failing photo download and a failing generation both
produce the generic apologies at a concrete state. -/
theorem C7_exceptions_caught_witness :
    (handle_photo (fun _ => GenResult.genError) "url0"
        [(1, UserRecord.mk 0 false [])] 1 MediaStep.exn).reply
      = Reply.apology photoApology
    ∧ (handle_message (fun _ => GenResult.genError) "url0"
        [(1, UserRecord.mk 0 false [])] 1 "hi").reply
      = Reply.apology msgApology := by
  constructor
  · exact (C7_exceptions_caught (fun _ => GenResult.genError) "url0"
      [(1, UserRecord.mk 0 false [])] 1 "hi").1
  · exact ((C7_exceptions_caught (fun _ => GenResult.genError) "url0"
      [(1, UserRecord.mk 0 false [])] 1 "hi").2.2.2 (Or.inr (by decide))).1 rfl

/-- C8: when generation or the reply raises inside handle_message, the
database is exactly as before the call: no count increment and no history
push, because the update runs only after a successful reply. -/
theorem C8_failure_leaves_db (env : String → GenResult) (curl : String)
    (db : Db) (uid : Nat) (msg : String) (r : UserRecord)
    (h : findOne db uid = some r)
    (hf : env (promptOf db uid msg) = GenResult.genError
        ∨ ∃ s, env (promptOf db uid msg) = GenResult.replyError s) :
    (handle_message env curl db uid msg).db = db := by
  have he : ensureUser db uid = db := ensureUser_of_some db uid r h
  rcases handle_message_db_cases env curl db uid msg with hc | ⟨s, hs, _⟩
  · rw [hc, he]
  · rw [he] at hs
    rcases hf with hf | ⟨s2, hf⟩
    · rw [hf] at hs
      cases hs
    · rw [hf] at hs
      cases hs

/-- Witness for C8: a failing generation leaves the concrete database
unchanged. -/
theorem C8_failure_leaves_db_witness :
    (handle_message (fun _ => GenResult.genError) "url0"
        [(1, UserRecord.mk 3 false [("a", "b")])] 1 "hi").db
      = [(1, UserRecord.mk 3 false [("a", "b")])] :=
  C8_failure_leaves_db (fun _ => GenResult.genError) "url0"
    [(1, UserRecord.mk 3 false [("a", "b")])] 1 "hi"
    (UserRecord.mk 3 false [("a", "b")]) rfl (Or.inl rfl)

/-- C9: the reset command clears only conversation_history; the
message_count and subscribed fields of the record are unchanged, and every
other record is untouched. -/
theorem C9_reset_only_history (db : Db) (uid : Nat) (r : UserRecord)
    (h : findOne db uid = some r) :
    findOne (reset db uid) uid
        = some (UserRecord.mk r.message_count r.subscribed [])
    ∧ (∀ v, ¬ v = uid → findOne (reset db uid) v = findOne db v) := by
  constructor
  · rw [reset, findOne_updateOne, if_pos rfl, h]
    rfl
  · intro v hv
    rw [reset, findOne_updateOne, if_neg hv]

/-- Witness for C9: resetting a subscribed user with 5 counted messages
keeps the count and the flag while clearing the history. -/
theorem C9_reset_only_history_witness :
    findOne (reset [(1, UserRecord.mk 5 true [("a", "b")])] 1) 1
      = some (UserRecord.mk 5 true []) :=
  (C9_reset_only_history [(1, UserRecord.mk 5 true [("a", "b")])] 1
    (UserRecord.mk 5 true [("a", "b")]) rfl).1

/-- C10: the analysis functions are total at their interface and return
the documented fallback values: analyze_image and analyze_video return
the error singleton on any internal failure, analyze_audio returns the
error text with the neutral sentiment, and analyze_video returns the
neutral singleton when no face is found. -/
theorem C10_analysis_fallbacks :
    analyze_image ImgEnv.exn = ["error"]
    ∧ (∀ fs, fs.mapM detect_emotion = none →
        analyze_image (ImgEnv.faces fs) = ["error"])
    ∧ analyze_audio AudEnv.exn = ("error", [Sentiment.mk "neutral"])
    ∧ analyze_video VidEnv.exn = ["error"]
    ∧ (∀ fs, fs.mapM detect_emotion = none →
        analyze_video (VidEnv.frames fs) = ["error"])
    ∧ analyze_video (VidEnv.frames []) = ["neutral"] := by
  refine ⟨rfl, ?_, rfl, rfl, ?_, rfl⟩
  · intro fs hf
    simp only [analyze_image]
    rw [hf]
  · intro fs hf
    simp only [analyze_video]
    rw [hf]

/-- Witness for C10: a face whose detector output is an empty emotions
table makes the dominant-emotion max raise, and both image and video
analysis fall back to the error singleton. -/
theorem C10_analysis_fallbacks_witness :
    ([[[]]] : List FaceDetections).mapM detect_emotion = none
    ∧ analyze_image (ImgEnv.faces [[[]]]) = ["error"]
    ∧ analyze_video (VidEnv.frames [[[]]]) = ["error"] := by
  refine ⟨rfl, ?_, ?_⟩
  · exact C10_analysis_fallbacks.2.1 [[[]]] rfl
  · exact C10_analysis_fallbacks.2.2.2.2.1 [[[]]] rfl

end TherapistBot
